import Mathlib

/-!
Shallow embedding of the bookstore backend in `src/server.js`.

Each Express route handler is modelled as a pure function from a
`ServerState` (the MongoDB collections plus the in-memory `otpStore`) and
the request data to a new state and a `Resp` (the HTTP response, or a
thrown/unhandled JavaScript error).  External node libraries — `crypto`
(HMAC-SHA256), `bcryptjs` and `jsonwebtoken` — are abstracted as a bundle
`NodeLibs` of uninterpreted functions; the wall clock `Date.now()` is passed in
as an explicit `now : Nat` (milliseconds).
-/

/-- External collaborators of the server, abstracted as uninterpreted
functions.  `hmacHex key msg` models
`crypto.createHmac('sha256', key).update(msg).digest('hex')` (server.js
lines 134-135); `bcryptHash` / `bcryptCompare` model `bcrypt.hash` /
`bcrypt.compare`; `jwtMac secret id exp` models the signature part of a
JWT produced by `jwt.sign` over the payload id and expiry claim. -/
structure NodeLibs where
  hmacHex : String → String → String
  bcryptHash : String → String
  bcryptCompare : String → String → Bool
  jwtMac : String → Nat → Nat → String

/-- Stand-in for the runtime configuration value `process.env.JWT_SECRET`. -/
def jwtSecret : String := "JWT_SECRET"

/-- Stand-in for the runtime configuration value
`process.env.RAZORPAY_KEY_SECRET`. -/
def rzpKeySecret : String := "RAZORPAY_KEY_SECRET"

/-- A document of the `User` collection (server.js lines 25-30).
`password` is `none` when the document was created without a password
field (as `POST /api/verify-otp` does). -/
structure UserRec where
  id : Nat
  name : Option String
  email : Option String
  mobile : Option String
  password : Option String
  isNewUser : Bool
deriving DecidableEq

/-- A line item of a purchase (server.js line 34). -/
structure LineItem where
  bookId : Int
  qty : Int
  price : Int
  title : String
deriving DecidableEq

/-- A document of the `Purchase` collection (server.js lines 32-38). -/
structure PurchaseRec where
  user : Nat
  items : List LineItem
  total : Int
  paymentId : String
  address : String
deriving DecidableEq

/-- An entry of the in-memory `otpStore` (server.js line 100): the code as
the string it is stored as, and the absolute expiry instant in ms. -/
structure OtpRec where
  otp : String
  expires : Nat
deriving DecidableEq

/-- A session token as produced by `jwt.sign` with `expiresIn: '7d'`:
the subject user id, the absolute expiry instant, and the signature over
both under the process secret. -/
structure Token where
  id : Nat
  exp : Nat
  sig : String
deriving DecidableEq

/-- The observable outcome of a request: an HTTP response of the handler, or
`jsError` for a JavaScript exception escaping the handler (no 2xx/4xx
response is produced in that case). -/
inductive Resp where
  | ok
  | sent
  | token (t : Token) (isNewUser : Bool)
  | badRequest (msg : String)
  | unauthorized (msg : String)
  | jsError (msg : String)
deriving DecidableEq

/-- The mutable state of the server: the two MongoDB collections, the
process-global `otpStore` map (server.js line 96, modelled as an
association list keyed by mobile number), and the id counter standing in
for MongoDB ObjectId generation. -/
structure ServerState where
  users : List UserRec
  purchases : List PurchaseRec
  otpStore : List (String × OtpRec)
  nextId : Nat
deriving DecidableEq

/-- The JWT lifetime `'7d'` (server.js lines 81, 91, 117), in milliseconds. -/
def sevenDaysMs : Nat := 7 * 24 * 60 * 60 * 1000

/-- The OTP lifetime `5 * 60 * 1000` (server.js line 100). -/
def fiveMinutesMs : Nat := 5 * 60 * 1000

/-- Models `jwt.sign(\x7b id: uid \x7d, JWT_SECRET, \x7b expiresIn: '7d' \x7d)` at time `now`. -/
def signToken (ext : NodeLibs) (now uid : Nat) : Token :=
  { id := uid, exp := now + sevenDaysMs, sig := ext.jwtMac jwtSecret uid (now + sevenDaysMs) }

/-- Models `jwt.verify(token, JWT_SECRET)` at time `now`: the signature must match
the one recomputed from the secret over the token claims, and the token
must not be expired (jsonwebtoken rejects once `now` reaches `exp`);
returns the embedded user id on success, `none` on any failure. -/
def verifyToken (ext : NodeLibs) (now : Nat) (t : Token) : Option Nat :=
  if t.sig = ext.jwtMac jwtSecret t.id t.exp then
    if now < t.exp then some t.id else none
  else none

/-- The `auth` middleware (server.js lines 63-71): missing token is a 401,
otherwise the token is verified and the resolved id attached as
`req.userId`.  It consults no server state at all. -/
def auth (ext : NodeLibs) (now : Nat) (tok : Option Token) : Option Nat :=
  match tok with
  | none => none
  | some t => verifyToken ext now t

/-- Route `POST /api/register` (server.js lines 76-83): hash the password, save a
new User (no duplicate check of any kind is performed), sign a 7-day
token and answer `\x7b token, isNewUser: true \x7d`. -/
def register (ext : NodeLibs) (s : ServerState) (now : Nat)
    (name email mobile : Option String) (password : String) : ServerState × Resp :=
  let hashed := ext.bcryptHash password
  let u : UserRec :=
    { id := s.nextId, name := name, email := email, mobile := mobile,
      password := some hashed, isNewUser := true }
  ({ s with users := s.users ++ [u], nextId := s.nextId + 1 },
   Resp.token (signToken ext now s.nextId) true)

/-- The query `User.findOne(\x7b $or: [\x7b email: id \x7d, \x7b mobile: id \x7d] \x7d)`
(server.js line 88): the first stored user whose email or mobile equals
the identifier. -/
def findByIdent (users : List UserRec) (id : String) : Option UserRec :=
  users.find? (fun u => u.email == some id || u.mobile == some id)

/-- Route `POST /api/login` (server.js lines 86-93).  When the found user has no
password field (an OTP-created account), `bcrypt.compare(password, undefined)`
rejects with `Illegal arguments` — bcryptjs requires both arguments to be
strings — so the handler throws instead of answering 401; modelled as
`Resp.jsError`. -/
def login (ext : NodeLibs) (s : ServerState) (now : Nat) (id password : String) :
    ServerState × Resp :=
  match findByIdent s.users id with
  | none => (s, Resp.unauthorized "Invalid credentials")
  | some u =>
    match u.password with
    | none => (s, Resp.jsError "Illegal arguments: string, undefined")
    | some h =>
      if ext.bcryptCompare password h then
        (s, Resp.token (signToken ext now u.id) u.isNewUser)
      else (s, Resp.unauthorized "Invalid credentials")

/-- Lookup in the `otpStore` association list: `otpStore[mobile]`. -/
def storeGet (st : List (String × OtpRec)) (m : String) : Option OtpRec :=
  (st.find? (fun p => p.1 == m)).map Prod.snd

/-- Assignment `otpStore[mobile] = rec`: overwrites any entry for `m`. -/
def storeSet (st : List (String × OtpRec)) (m : String) (r : OtpRec) :
    List (String × OtpRec) :=
  (m, r) :: st.filter (fun p => p.1 != m)

/-- Deletion `delete otpStore[mobile]`. -/
def storeDel (st : List (String × OtpRec)) (m : String) : List (String × OtpRec) :=
  st.filter (fun p => p.1 != m)

/-- The code draw `Math.floor(100000 + Math.random() * 900000).toString()` (server.js
line 99), with the random draw surfaced as `rand`; the real draw satisfies
`rand < 900000`. -/
def otpCode (rand : Nat) : String := toString (100000 + rand)

/-- Route `POST /api/send-otp` (server.js lines 97-107): the challenge is stored
first; only then is the SMS dispatched, whose outcome `dispatchOk` decides
the response — a dispatch failure rejects the handler (no response) but
the already-performed store write stays. -/
def sendOtp (s : ServerState) (now : Nat) (mobile : String) (rand : Nat)
    (dispatchOk : Bool) : ServerState × Resp :=
  let s1 := { s with otpStore := storeSet s.otpStore mobile ⟨otpCode rand, now + fiveMinutesMs⟩ }
  (s1, if dispatchOk then Resp.sent else Resp.jsError "twilio dispatch failed")

/-- The query `User.findOne(\x7b mobile \x7d)` (server.js line 115). -/
def findUserByMobile (users : List UserRec) (m : String) : Option UserRec :=
  users.find? (fun u => u.mobile == some m)

/-- Route `POST /api/verify-otp` (server.js lines 109-119): reject unless a
challenge is stored, not expired (`rec.expires < Date.now()` rejects, so
the exact expiry instant still passes) and the code matches exactly; on
success delete the challenge, resolve or create the user for that mobile
(created with no password and `isNewUser = true`) and answer with a fresh
7-day token. -/
def verifyOtp (ext : NodeLibs) (s : ServerState) (now : Nat) (mobile otp : String) :
    ServerState × Resp :=
  match storeGet s.otpStore mobile with
  | none => (s, Resp.badRequest "Invalid OTP")
  | some r0 =>
    if r0.expires < now || r0.otp != otp then
      (s, Resp.badRequest "Invalid OTP")
    else
      let s1 := { s with otpStore := storeDel s.otpStore mobile }
      match findUserByMobile s1.users mobile with
      | some u => (s1, Resp.token (signToken ext now u.id) u.isNewUser)
      | none =>
        let u : UserRec :=
          { id := s1.nextId, name := none, email := none,
            mobile := some mobile, password := none, isNewUser := true }
        ({ s1 with users := s1.users ++ [u], nextId := s1.nextId + 1 },
         Resp.token (signToken ext now u.id) true)

/-- The order opened on the payment gateway by `rzp.orders.create`
(server.js lines 124-128). -/
structure OrderReq where
  amount : Int
  currency : String
deriving DecidableEq

/-- Route `POST /api/create-order` (server.js lines 122-130): the gateway order is
opened for `amount * 100` (the request's `amount`, in rupees, converted to
paise) with currency INR. -/
def createOrder (amount : Int) : OrderReq :=
  { amount := amount * 100, currency := "INR" }

/-- The exact string the HMAC is computed over (server.js line 135). -/
def hmacInput (orderId paymentId : String) : String := orderId ++ "|" ++ paymentId

/-- The signature check of `POST /api/verify-payment` (server.js lines
134-136): recompute the hex HMAC-SHA256 of `orderId|paymentId` under the
gateway key secret and compare it for string equality against the provided
signature.  A total Boolean function: it never throws. -/
def verifyCallback (ext : NodeLibs) (orderId paymentId sig : String) : Bool :=
  ext.hmacHex rzpKeySecret (hmacInput orderId paymentId) == sig

/-- Route `POST /api/verify-payment` (server.js lines 132-142): on signature
mismatch answer 400 `Bad sign` and change nothing; otherwise save a new
Purchase built from the caller-supplied body (no duplicate-payment check
of any kind) and set the caller's `isNewUser` to false. -/
def verifyPayment (ext : NodeLibs) (s : ServerState) (userId : Nat)
    (orderId paymentId sig : String) (items : List LineItem) (total : Int)
    (address : String) : ServerState × Resp :=
  if verifyCallback ext orderId paymentId sig then
    let p : PurchaseRec :=
      { user := userId, items := items, total := total,
        paymentId := paymentId, address := address }
    ({ s with
        purchases := s.purchases ++ [p],
        users := s.users.map (fun u => if u.id = userId then { u with isNewUser := false } else u) },
     Resp.ok)
  else (s, Resp.badRequest "Bad sign")

/-- Number of positions at which two character lists differ. -/
def diffCount (l1 l2 : List Char) : Nat :=
  (l1.zip l2).countP (fun q => q.1 != q.2)

/-- `b` is `a` with exactly one character changed (same length, exactly one
differing position). -/
def oneCharMutation (a b : String) : Prop :=
  a.data.length = b.data.length ∧ diffCount a.data b.data = 1

/-- A concrete instantiation of the external collaborators, used to
evaluate the model on closed inputs: the HMAC is the identity on the
message (trivially free of collisions), bcrypt prefixes a tag, and the JWT
mac serialises its inputs. -/
def extW : NodeLibs :=
  { hmacHex := fun _ m => m
    bcryptHash := fun p => "h:" ++ p
    bcryptCompare := fun p h => h == "h:" ++ p
    jwtMac := fun secret uid e => secret ++ ":" ++ toString uid ++ ":" ++ toString e }

/-- The empty server state. -/
def sEmpty : ServerState := { users := [], purchases := [], otpStore := [], nextId := 0 }

/-! Helper lemmas about the otpStore association list. -/

theorem storeGet_storeSet_self (st : List (String × OtpRec)) (m : String) (r : OtpRec) :
    storeGet (storeSet st m r) m = some r := by
  simp [storeGet, storeSet, List.find?_cons]

theorem find?_filter_drop (st : List (String × OtpRec)) (m m' : String) (h : m' ≠ m) :
    (st.filter (fun q => q.1 != m)).find? (fun q => q.1 == m')
      = st.find? (fun q => q.1 == m') := by
  induction st with
  | nil => rfl
  | cons hd tl ih =>
    by_cases hm : hd.1 = m
    · have h2 : (m == m') = false := beq_eq_false_iff_ne.mpr (fun hc => h hc.symm)
      simp [List.filter_cons, List.find?_cons, hm, h2, ih]
    · have h1 : (hd.1 == m) = false := beq_eq_false_iff_ne.mpr hm
      by_cases hq : hd.1 = m'
      · simp [List.filter_cons, List.find?_cons, h1, hq, h]
      · have hq2 : (hd.1 == m') = false := beq_eq_false_iff_ne.mpr hq
        simp [List.filter_cons, List.find?_cons, h1, hq2, hm, ih]

theorem storeGet_storeSet_ne (st : List (String × OtpRec)) (m m' : String) (r : OtpRec)
    (h : m' ≠ m) : storeGet (storeSet st m r) m' = storeGet st m' := by
  have hne : (m == m') = false := by
    simp
    exact fun hc => h hc.symm
  simp [storeGet, storeSet, List.find?_cons, hne, find?_filter_drop st m m' h]

theorem storeGet_storeDel_self (st : List (String × OtpRec)) (m : String) :
    storeGet (storeDel st m) m = none := by
  have : (st.filter (fun q => q.1 != m)).find? (fun q => q.1 == m) = none := by
    rw [List.find?_eq_none]
    intro x hx
    have hxm := List.of_mem_filter hx
    simp at hxm
    simp [hxm]
  simp [storeGet, storeDel, this]

/-! Helper lemmas about user lookup and update. -/

theorem findByIdent_append_right (l1 l2 : List UserRec) (id : String)
    (h : ∀ u ∈ l1, u.email ≠ some id ∧ u.mobile ≠ some id) :
    findByIdent (l1 ++ l2) id = findByIdent l2 id := by
  unfold findByIdent
  rw [List.find?_append]
  have hnone : l1.find? (fun u => u.email == some id || u.mobile == some id) = none := by
    rw [List.find?_eq_none]
    intro u hu
    have := h u hu
    simp [this.1, this.2]
  rw [hnone, Option.none_or]

theorem findUserByMobile_none (l : List UserRec) (m : String)
    (h : ∀ u ∈ l, u.mobile ≠ some m) : findUserByMobile l m = none := by
  unfold findUserByMobile
  rw [List.find?_eq_none]
  intro u hu
  simp [h u hu]

theorem users_update_no_match (l : List UserRec) (uid : Nat)
    (h : ∀ u ∈ l, u.id ≠ uid) :
    l.map (fun u => if u.id = uid then { u with isNewUser := false } else u) = l := by
  have hcongr :
      l.map (fun u => if u.id = uid then { u with isNewUser := false } else u) = l.map id :=
    List.map_congr_left (fun u hu => by simp [h u hu])
  rw [hcongr, List.map_id]

/-! Helper lemmas about single-character mutations. -/

theorem diffCount_self (l : List Char) : diffCount l l = 0 := by
  induction l with
  | nil => rfl
  | cons c t ih => simpa [diffCount, List.countP_cons] using ih

theorem oneCharMutation_ne {a b : String} (h : oneCharMutation a b) : a ≠ b := by
  intro hab
  subst hab
  have h2 := h.2
  rw [diffCount_self] at h2
  exact Nat.zero_ne_one h2

theorem oneCharMutation_append_right {a b : String} (c : String)
    (h : oneCharMutation a b) : oneCharMutation (a ++ c) (b ++ c) := by
  obtain ⟨hlen, hcnt⟩ := h
  constructor
  · simp [String.data_append, hlen]
  · unfold diffCount at hcnt ⊢
    rw [String.data_append, String.data_append, List.zip_append hlen, List.countP_append,
      hcnt]
    have hc : (c.data.zip c.data).countP (fun q => q.1 != q.2) = 0 := diffCount_self c.data
    rw [hc]

theorem oneCharMutation_append_left {a b : String} (c : String)
    (h : oneCharMutation a b) : oneCharMutation (c ++ a) (c ++ b) := by
  obtain ⟨hlen, hcnt⟩ := h
  constructor
  · simp [String.data_append, hlen]
  · unfold diffCount at hcnt ⊢
    rw [String.data_append, String.data_append, List.zip_append rfl, List.countP_append,
      hcnt]
    have hc : (c.data.zip c.data).countP (fun q => q.1 != q.2) = 0 := diffCount_self c.data
    rw [hc]

/-! Theorems for the claims. -/

/-- C2: the signature check of verify-payment accepts exactly when the
provided signature equals the hex HMAC of `orderId|paymentId` under the
gateway shared secret, and it rejects any single-character mutation of the
signature, the order id or the payment id.  The HMAC primitive is the
abstract `hmacHex` collaborator; the mutation conjuncts assume its
defining property, that distinct (single-character-mutated) messages have
distinct digests.  `verifyCallback` is a total Boolean function, so it
never throws. -/
theorem verifyCallback_spec (ext : NodeLibs) (o p s : String)
    (hcoll : ∀ m1 m2 : String, oneCharMutation m1 m2 →
      ext.hmacHex rzpKeySecret m1 ≠ ext.hmacHex rzpKeySecret m2) :
    (verifyCallback ext o p s = true ↔ ext.hmacHex rzpKeySecret (hmacInput o p) = s)
    ∧ (∀ s', oneCharMutation s s' → verifyCallback ext o p s = true →
        verifyCallback ext o p s' = false)
    ∧ (∀ o', oneCharMutation o o' → verifyCallback ext o p s = true →
        verifyCallback ext o' p s = false)
    ∧ (∀ p', oneCharMutation p p' → verifyCallback ext o p s = true →
        verifyCallback ext o p' s = false) := by
  refine ⟨by simp [verifyCallback], ?_, ?_, ?_⟩
  · intro s' hmut hacc
    have he : ext.hmacHex rzpKeySecret (hmacInput o p) = s := by
      simpa [verifyCallback] using hacc
    rw [verifyCallback, beq_eq_false_iff_ne, he]
    exact oneCharMutation_ne hmut
  · intro o' hmut hacc
    have he : ext.hmacHex rzpKeySecret (hmacInput o p) = s := by
      simpa [verifyCallback] using hacc
    have hm : oneCharMutation (hmacInput o p) (hmacInput o' p) :=
      oneCharMutation_append_right p (oneCharMutation_append_right "|" hmut)
    rw [verifyCallback, beq_eq_false_iff_ne, ← he]
    exact (hcoll _ _ hm).symm
  · intro p' hmut hacc
    have he : ext.hmacHex rzpKeySecret (hmacInput o p) = s := by
      simpa [verifyCallback] using hacc
    have hm : oneCharMutation (hmacInput o p) (hmacInput o p') :=
      oneCharMutation_append_left (o ++ "|") hmut
    rw [verifyCallback, beq_eq_false_iff_ne, ← he]
    exact (hcoll _ _ hm).symm

/-- C2 witness: with the collision-free concrete collaborator `extW`, an
exactly matching signature is accepted. -/
theorem verifyCallback_spec_witness :
    verifyCallback extW "order_abc" "pay_xyz" "order_abc|pay_xyz" = true :=
  (verifyCallback_spec extW "order_abc" "pay_xyz" "order_abc|pay_xyz"
    (fun _ _ hmut => oneCharMutation_ne hmut)).1.mpr rfl

/-- C6: a token issued at `now0` for `uid` verifies to `some uid` at every
instant strictly before `now0 + 7` days; it fails at every instant
strictly after `now0 + 7` days; and every token whose signature does not
match the one recomputed under the process secret fails, at any time. -/
theorem session_token_spec (ext : NodeLibs) (uid now0 : Nat) :
    (∀ now, now < now0 + sevenDaysMs →
      verifyToken ext now (signToken ext now0 uid) = some uid)
    ∧ (∀ now, now0 + sevenDaysMs < now →
      verifyToken ext now (signToken ext now0 uid) = none)
    ∧ (∀ now t, t.sig ≠ ext.jwtMac jwtSecret t.id t.exp →
      verifyToken ext now t = none) := by
  refine ⟨?_, ?_, ?_⟩
  · intro now h
    simp [verifyToken, signToken, h]
  · intro now h
    have h2 : ¬ now < now0 + sevenDaysMs := by omega
    simp [verifyToken, signToken, h2]
  · intro now t h
    simp [verifyToken, h]

/-- C6 witness: a token issued at time 0 verifies at time 5 and fails one
millisecond after the 7-day expiry. -/
theorem session_token_spec_witness :
    verifyToken extW 5 (signToken extW 0 7) = some 7
    ∧ verifyToken extW (sevenDaysMs + 1) (signToken extW 0 7) = none :=
  ⟨(session_token_spec extW 7 0).1 5 (by simp [sevenDaysMs]),
   (session_token_spec extW 7 0).2.1 (sevenDaysMs + 1) (by omega)⟩

/-- C3: when the provided signature differs from the recomputed HMAC,
verify-payment answers 400 `Bad sign` and leaves the state exactly as it
was: no Purchase record is created and the users (including their
`isNewUser` flags) are untouched. -/
theorem verifyPayment_badSign_spec (ext : NodeLibs) (s : ServerState) (uid : Nat)
    (o p sig : String) (items : List LineItem) (total : Int) (address : String)
    (h : ext.hmacHex rzpKeySecret (hmacInput o p) ≠ sig) :
    verifyPayment ext s uid o p sig items total address = (s, Resp.badRequest "Bad sign")
    ∧ (verifyPayment ext s uid o p sig items total address).1.purchases = s.purchases
    ∧ (verifyPayment ext s uid o p sig items total address).1.users = s.users := by
  have hv : verifyCallback ext o p sig = false := by
    rw [verifyCallback, beq_eq_false_iff_ne]
    exact h
  refine ⟨?_, ?_, ?_⟩ <;> simp [verifyPayment, hv]

/-- C3 witness: a concrete mismatching signature is rejected with
`Bad sign` and the empty state is unchanged. -/
theorem verifyPayment_badSign_witness :
    verifyPayment extW sEmpty 0 "oid" "pid" "bad" [] 0 "addr"
      = (sEmpty, Resp.badRequest "Bad sign") :=
  (verifyPayment_badSign_spec extW sEmpty 0 "oid" "pid" "bad" [] 0 "addr"
    (by decide)).1

/-- C1: the code has no duplicate-payment guard.  Calling verify-payment
twice with the same `gatewayPaymentId` "pid" (both times with a valid
signature) succeeds both times and leaves TWO Purchase records with that
payment id, where the claim requires the second call to fail with
`DuplicatePaymentError` and exactly one record to exist. -/
theorem verifyPayment_duplicate_demo :
    (verifyPayment extW sEmpty 0 "oid" "pid" "oid|pid" [] 500 "addr").2 = Resp.ok
    ∧ (verifyPayment extW (verifyPayment extW sEmpty 0 "oid" "pid" "oid|pid" [] 500 "addr").1
        0 "oid" "pid" "oid|pid" [] 500 "addr").2 = Resp.ok
    ∧ ((verifyPayment extW (verifyPayment extW sEmpty 0 "oid" "pid" "oid|pid" [] 500 "addr").1
        0 "oid" "pid" "oid|pid" [] 500 "addr").1.purchases.filter
          (fun q => q.paymentId == "pid")).length = 2 := by
  refine ⟨rfl, rfl, rfl⟩

/-- C10: the auth gateway verifies the token signature and expiry only —
it consults no stored User at all — so a validly signed token embedding an
id with no User record passes, and verify-payment then records a Purchase
whose `user` field references that nonexistent id, while the users
collection stays unchanged (the `isNewUser` update matches nothing). -/
theorem auth_no_existence_spec (ext : NodeLibs) (s : ServerState) (uid now0 now : Nat)
    (o p sig : String) (items : List LineItem) (total : Int) (address : String)
    (hnou : ∀ u ∈ s.users, u.id ≠ uid)
    (hnow : now < now0 + sevenDaysMs)
    (hsig : ext.hmacHex rzpKeySecret (hmacInput o p) = sig) :
    auth ext now (some (signToken ext now0 uid)) = some uid
    ∧ (verifyPayment ext s uid o p sig items total address).2 = Resp.ok
    ∧ (verifyPayment ext s uid o p sig items total address).1.purchases
        = s.purchases ++ [⟨uid, items, total, p, address⟩]
    ∧ (verifyPayment ext s uid o p sig items total address).1.users = s.users := by
  have hv : verifyCallback ext o p sig = true := by
    simp [verifyCallback, hsig]
  refine ⟨?_, ?_, ?_, ?_⟩
  · simp [auth, verifyToken, signToken, hnow]
  · simp [verifyPayment, hv]
  · simp [verifyPayment, hv]
  · simp [verifyPayment, hv]
    exact users_update_no_match s.users uid hnou

/-- C10 witness: a token for the nonexistent id 42, issued at time 0 and
presented at time 1, passes auth over the empty state and the purchase is
recorded against id 42. -/
theorem auth_no_existence_witness :
    auth extW 1 (some (signToken extW 0 42)) = some 42
    ∧ (verifyPayment extW sEmpty 42 "oid" "pid" "oid|pid" [] 500 "addr").1.purchases
        = [⟨42, [], 500, "pid", "addr"⟩] := by
  have h := auth_no_existence_spec extW sEmpty 42 0 1 "oid" "pid" "oid|pid" [] 500 "addr"
    (by simp [sEmpty]) (by simp [sevenDaysMs]) (by decide)
  exact ⟨h.1, by simpa [sEmpty] using h.2.2.1⟩

/-- C7 counterexample: for the requested amount 5 the created gateway
order's amount is 500, which is a multiple of 5 other than 5 itself,
contradicting the claim that the created amount is never such a multiple. -/
theorem createOrder_amount_counterexample :
    (createOrder 5).amount = 500
    ∧ (createOrder 5).amount ≠ 5
    ∧ (5 : Int) ∣ (createOrder 5).amount := by
  refine ⟨rfl, by decide, ⟨100, by norm_num [createOrder]⟩⟩

/-- C7 amended: create-order opens the gateway order for exactly 100 times
the requested amount (the request body's rupee amount converted to paise,
the gateway's minor unit) with currency INR. -/
theorem createOrder_spec (amount : Int) :
    (createOrder amount).amount = amount * 100
    ∧ (createOrder amount).currency = "INR" :=
  ⟨rfl, rfl⟩

/-! Shared lemmas about verify-otp. -/

theorem verifyOtp_success (ext : NodeLibs) (s : ServerState) (now : Nat)
    (mobile code : String) (r : OtpRec)
    (hget : storeGet s.otpStore mobile = some r)
    (hc : r.otp = code) (ht : now ≤ r.expires) :
    (∃ t b, (verifyOtp ext s now mobile code).2 = Resp.token t b)
    ∧ (verifyOtp ext s now mobile code).1.otpStore = storeDel s.otpStore mobile
    ∧ ((∀ u ∈ s.users, u.mobile ≠ some mobile) →
        (verifyOtp ext s now mobile code).1.users
          = s.users ++ [⟨s.nextId, none, none, some mobile, none, true⟩]
        ∧ (verifyOtp ext s now mobile code).2
          = Resp.token (signToken ext now s.nextId) true) := by
  have h1 : ¬ (r.expires < now) := by omega
  unfold verifyOtp
  rw [hget]
  simp only [h1, hc, bne_self_eq_false, Bool.or_self, decide_False, Bool.false_or,
    if_false, Bool.false_eq_true]
  cases hfind : findUserByMobile s.users mobile with
  | some u =>
    refine ⟨⟨signToken ext now u.id, u.isNewUser, rfl⟩, rfl, ?_⟩
    intro hno
    exfalso
    rw [findUserByMobile_none s.users mobile hno] at hfind
    exact Option.noConfusion hfind
  | none => exact ⟨⟨signToken ext now s.nextId, true, rfl⟩, rfl, fun _ => ⟨rfl, rfl⟩⟩

theorem verifyOtp_failure (ext : NodeLibs) (s : ServerState) (now : Nat)
    (mobile code : String)
    (h : ∀ r : OtpRec, storeGet s.otpStore mobile = some r →
      r.otp ≠ code ∨ r.expires < now) :
    verifyOtp ext s now mobile code = (s, Resp.badRequest "Invalid OTP") := by
  unfold verifyOtp
  cases hget : storeGet s.otpStore mobile with
  | none => rfl
  | some r =>
    rcases h r hget with hc | ht
    · have hb : (r.otp != code) = true := bne_iff_ne.mpr hc
      simp [hb]
    · simp [ht]

/-- C8: send-otp stores, for the given mobile, a code in the 6-digit range
100000-999999 with expiry exactly 5 minutes after issuance, overwriting
whatever challenge was previously stored for that mobile (entries for
other mobiles are untouched); the store write happens before SMS dispatch,
so on dispatch failure the handler throws but the challenge is stored all
the same — identically to the success case — and is still verifiable at
any instant up to its expiry. -/
theorem sendOtp_spec (ext : NodeLibs) (s : ServerState) (now : Nat) (mobile : String)
    (rand : Nat) (dispatchOk : Bool) (hr : rand < 900000) :
    storeGet (sendOtp s now mobile rand dispatchOk).1.otpStore mobile
      = some ⟨otpCode rand, now + fiveMinutesMs⟩
    ∧ (100000 ≤ 100000 + rand ∧ 100000 + rand ≤ 999999)
    ∧ (∀ m', m' ≠ mobile →
        storeGet (sendOtp s now mobile rand dispatchOk).1.otpStore m'
          = storeGet s.otpStore m')
    ∧ (sendOtp s now mobile rand false).2 = Resp.jsError "twilio dispatch failed"
    ∧ (sendOtp s now mobile rand false).1 = (sendOtp s now mobile rand true).1
    ∧ (∀ now', now' ≤ now + fiveMinutesMs →
        ∃ t b, (verifyOtp ext (sendOtp s now mobile rand false).1 now' mobile
          (otpCode rand)).2 = Resp.token t b) := by
  refine ⟨storeGet_storeSet_self _ _ _, ⟨by omega, by omega⟩,
    fun m' hm' => storeGet_storeSet_ne _ _ _ _ hm', rfl, rfl, ?_⟩
  intro now' hle
  exact (verifyOtp_success ext (sendOtp s now mobile rand false).1 now' mobile
    (otpCode rand) ⟨otpCode rand, now + fiveMinutesMs⟩
    (storeGet_storeSet_self _ _ _) rfl hle).1

/-- C8 witness: a concrete send-otp with failed dispatch still stores the
challenge, which verifies a moment later. -/
theorem sendOtp_spec_witness :
    storeGet (sendOtp sEmpty 0 "9" 0 false).1.otpStore "9"
      = some ⟨otpCode 0, 0 + fiveMinutesMs⟩
    ∧ ∃ t b, (verifyOtp extW (sendOtp sEmpty 0 "9" 0 false).1 10 "9"
        (otpCode 0)).2 = Resp.token t b :=
  ⟨(sendOtp_spec extW sEmpty 0 "9" 0 false (by decide)).1,
   (sendOtp_spec extW sEmpty 0 "9" 0 false (by decide)).2.2.2.2.2 10 (by decide)⟩

/-- C4 counterexample: registering the email `a@b.c` twice on an empty
store succeeds both times — the second call answers a fresh token, not a
409 conflict — and afterwards two User records share that email, refuting
both the ConflictError behaviour and the uniqueness invariant. -/
theorem register_duplicate_email_counterexample :
    (register extW (register extW sEmpty 0 none (some "a@b.c") none "pw").1 1
      none (some "a@b.c") none "pw").2 = Resp.token (signToken extW 1 1) true
    ∧ ((register extW (register extW sEmpty 0 none (some "a@b.c") none "pw").1 1
        none (some "a@b.c") none "pw").1.users.filter
          (fun u => u.email == some "a@b.c")).length = 2 :=
  ⟨rfl, rfl⟩

/-- C4 amended: register performs no duplicate check at all — every call,
whatever email or mobile is supplied, saves a fresh User record and
answers a token (never a ConflictError), so registering the same email
twice leaves two User records sharing that email. -/
theorem register_no_conflict_spec (ext : NodeLibs) (s : ServerState) (now : Nat)
    (name : Option String) (e : String) (mobile : Option String) (pw : String) :
    (register ext s now name (some e) mobile pw).2
      = Resp.token (signToken ext now s.nextId) true
    ∧ (register ext s now name (some e) mobile pw).1.users
        = s.users ++ [⟨s.nextId, name, some e, mobile, some (ext.bcryptHash pw), true⟩]
    ∧ ((register ext (register ext s now name (some e) mobile pw).1 now
          name (some e) mobile pw).1.users.filter
            (fun u => u.email == some e)).length
        = (s.users.filter (fun u => u.email == some e)).length + 2 := by
  refine ⟨rfl, rfl, ?_⟩
  simp [register, List.filter_append]

/-- C5 counterexample: a challenge issued at time 0 expires at exactly
`fiveMinutesMs`, yet verification at that very instant — which is NOT
strictly before issuance + 5 minutes — still succeeds, because the code
only rejects when `expires < now`. -/
theorem verifyOtp_boundary_counterexample :
    (verifyOtp extW (sendOtp sEmpty 0 "9" 0 true).1 fiveMinutesMs "9"
        (otpCode 0)).2 = Resp.token (signToken extW fiveMinutesMs 0) true
    ∧ ¬ (fiveMinutesMs < 0 + fiveMinutesMs) :=
  ⟨rfl, by decide⟩

/-- C5 amended: after a challenge for `mobile` is issued at `now0`,
verification succeeds iff the submitted code is exactly the issued code
AND the current time is at most `now0` + 5 minutes (the instant exactly
5 minutes after issuance is still accepted); any prior, different code is
invalidated by the reissue; a successful verification deletes the
challenge, so repeating it fails; and when no user holds that mobile a
User is created with `isNewUser = true` and no password. -/
theorem verifyOtp_spec (ext : NodeLibs) (s : ServerState) (now now0 : Nat)
    (mobile code : String) (rand : Nat) (d : Bool) :
    ((∃ t b, (verifyOtp ext (sendOtp s now0 mobile rand d).1 now mobile code).2
        = Resp.token t b)
      ↔ (code = otpCode rand ∧ now ≤ now0 + fiveMinutesMs))
    ∧ (∀ rand0 t0 d0, otpCode rand0 ≠ otpCode rand →
        verifyOtp ext (sendOtp (sendOtp s t0 mobile rand0 d0).1 now0 mobile rand d).1
          now mobile (otpCode rand0)
          = ((sendOtp (sendOtp s t0 mobile rand0 d0).1 now0 mobile rand d).1,
             Resp.badRequest "Invalid OTP"))
    ∧ (code = otpCode rand → now ≤ now0 + fiveMinutesMs → ∀ now2 code2,
        (verifyOtp ext (verifyOtp ext (sendOtp s now0 mobile rand d).1 now mobile code).1
          now2 mobile code2).2 = Resp.badRequest "Invalid OTP")
    ∧ ((∀ u ∈ s.users, u.mobile ≠ some mobile) → code = otpCode rand →
        now ≤ now0 + fiveMinutesMs →
        (verifyOtp ext (sendOtp s now0 mobile rand d).1 now mobile code).1.users
          = s.users ++ [⟨s.nextId, none, none, some mobile, none, true⟩]
        ∧ (verifyOtp ext (sendOtp s now0 mobile rand d).1 now mobile code).2
          = Resp.token (signToken ext now s.nextId) true) := by
  have hget : storeGet (sendOtp s now0 mobile rand d).1.otpStore mobile
      = some ⟨otpCode rand, now0 + fiveMinutesMs⟩ := storeGet_storeSet_self _ _ _
  refine ⟨⟨?_, ?_⟩, ?_, ?_, ?_⟩
  · intro ⟨t, b, htok⟩
    by_contra hnot
    have hfail := verifyOtp_failure ext (sendOtp s now0 mobile rand d).1 now mobile code
      (fun r hr => by
        rw [hget] at hr
        cases hr
        show ¬ otpCode rand = code ∨ now0 + fiveMinutesMs < now
        by_cases hcode : code = otpCode rand
        · right
          have : ¬ now ≤ now0 + fiveMinutesMs := fun hle => hnot ⟨hcode, hle⟩
          omega
        · left
          exact fun hcontra => hcode hcontra.symm)
    rw [hfail] at htok
    exact Resp.noConfusion htok
  · intro ⟨hcode, hle⟩
    exact (verifyOtp_success ext (sendOtp s now0 mobile rand d).1 now mobile code
      ⟨otpCode rand, now0 + fiveMinutesMs⟩ hget hcode.symm hle).1
  · intro rand0 t0 d0 hne
    refine verifyOtp_failure ext _ now mobile (otpCode rand0) (fun r hr => ?_)
    have hget2 : storeGet
        (sendOtp (sendOtp s t0 mobile rand0 d0).1 now0 mobile rand d).1.otpStore mobile
        = some ⟨otpCode rand, now0 + fiveMinutesMs⟩ := storeGet_storeSet_self _ _ _
    rw [hget2] at hr
    cases hr
    exact Or.inl (fun hcontra => hne hcontra.symm)
  · intro hcode hle now2 code2
    have hdel := (verifyOtp_success ext (sendOtp s now0 mobile rand d).1 now mobile code
      ⟨otpCode rand, now0 + fiveMinutesMs⟩ hget hcode.symm hle).2.1
    have hfail := verifyOtp_failure ext
      (verifyOtp ext (sendOtp s now0 mobile rand d).1 now mobile code).1 now2 mobile code2
      (fun r hr => by
        rw [hdel, storeGet_storeDel_self] at hr
        exact Option.noConfusion hr)
    rw [hfail]
  · intro hno hcode hle
    exact (verifyOtp_success ext (sendOtp s now0 mobile rand d).1 now mobile code
      ⟨otpCode rand, now0 + fiveMinutesMs⟩ hget hcode.symm hle).2.2 hno

/-- C5 witness: on an empty store, the challenge issued at time 0 verifies
at time 10 with the issued code, and the created user record carries
`isNewUser = true` and no password. -/
theorem verifyOtp_spec_witness :
    (∃ t b, (verifyOtp extW (sendOtp sEmpty 0 "9" 0 true).1 10 "9"
        (otpCode 0)).2 = Resp.token t b)
    ∧ (verifyOtp extW (sendOtp sEmpty 0 "9" 0 true).1 10 "9" (otpCode 0)).1.users
        = [⟨0, none, none, some "9", none, true⟩] :=
  ⟨(verifyOtp_spec extW sEmpty 10 0 "9" (otpCode 0) 0 true).1.mpr ⟨rfl, by decide⟩,
   by
    have h := ((verifyOtp_spec extW sEmpty 10 0 "9" (otpCode 0) 0 true).2.2.2
      (by simp [sEmpty]) rfl (by decide)).1
    simpa [sEmpty] using h⟩

/-- C9: a user created by OTP verification has no stored password hash;
calling login with that user's mobile and any password then reaches
`bcrypt.compare(password, undefined)`, which throws (`Illegal arguments`)
instead of answering 401 `Invalid credentials` — so login never returns
the 401 response for such an account. -/
theorem login_otp_user_throws (ext : NodeLibs) (s : ServerState) (now now0 : Nat)
    (mobile code pw : String) (r : OtpRec)
    (hget : storeGet s.otpStore mobile = some r) (hc : r.otp = code)
    (ht : now0 ≤ r.expires)
    (hno : ∀ u ∈ s.users, u.mobile ≠ some mobile ∧ u.email ≠ some mobile) :
    (login ext (verifyOtp ext s now0 mobile code).1 now mobile pw).2
      = Resp.jsError "Illegal arguments: string, undefined"
    ∧ ∀ msg, (login ext (verifyOtp ext s now0 mobile code).1 now mobile pw).2
      ≠ Resp.unauthorized msg := by
  have husers := ((verifyOtp_success ext s now0 mobile code r hget hc ht).2.2
    (fun u hu => (hno u hu).1)).1
  have hfind : findByIdent (verifyOtp ext s now0 mobile code).1.users mobile
      = some ⟨s.nextId, none, none, some mobile, none, true⟩ := by
    rw [husers,
      findByIdent_append_right s.users _ mobile (fun u hu => ⟨(hno u hu).2, (hno u hu).1⟩)]
    simp [findByIdent, List.find?_cons]
  constructor
  · unfold login
    rw [hfind]
  · intro msg
    unfold login
    rw [hfind]
    simp

/-- C9 witness: the user created by a concrete OTP verification for mobile
"9" makes a subsequent login with that mobile throw rather than answer
401. -/
theorem login_otp_user_throws_witness :
    (login extW (verifyOtp extW (sendOtp sEmpty 0 "9" 0 true).1 10 "9" (otpCode 0)).1
      20 "9" "guess").2 = Resp.jsError "Illegal arguments: string, undefined" :=
  (login_otp_user_throws extW (sendOtp sEmpty 0 "9" 0 true).1 20 10 "9" (otpCode 0)
    "guess" ⟨otpCode 0, 0 + fiveMinutesMs⟩ (storeGet_storeSet_self _ _ _) rfl
    (by decide) (by simp [sendOtp, sEmpty])).1
